import Mathlib

/-!
Verification of the intelligent-email-routing repository.

The repository has two Python sources:
  * `lambda.py`     — the forwarding pipeline (content extraction, banner
    construction, routing-config read, AI routing decision, dispatch loop);
  * `mcp_lambda.py` — the MCP configuration-protocol handler (API-key
    validation, routing-rules read/write/history, rules validation).

Strings are modelled as `List Char` for the text-processing functions and as
Lean `String` for the DynamoDB store model.  Machine behaviour of the Python
standard library (`str.strip`, `str.lower`, `str.replace`, substring `in`,
`html.escape`, `bytes.decode`) is embedded explicitly below.
-/

/-- Character-list strings, the domain of the text-processing model. -/
abbrev Str := List Char

/-- The whitespace characters stripped by Python `str.strip()` (ASCII part). -/
def pyWhitespace : List Char := [' ', '\t', '\n', '\r', '\x0b', '\x0c']

/-- Is `c` Python whitespace? -/
def isPyWs (c : Char) : Bool := pyWhitespace.contains c

/-- Drop leading whitespace. -/
def stripLeft : Str → Str
  | [] => []
  | c :: cs => if isPyWs c then stripLeft cs else c :: cs

/-- Model of Python `s.strip()`: drop leading and trailing whitespace. -/
def pyStrip (s : Str) : Str := (stripLeft ((stripLeft s).reverse)).reverse

/-- Model of Python `s.lower()` on the ASCII range. -/
def pyLower (s : Str) : Str := s.map Char.toLower

/-- Does `hay` begin with `needle`? -/
def beginsWith : Str → Str → Bool
  | [], _ => true
  | _ :: _, [] => false
  | a :: as, b :: bs => a = b && beginsWith as bs

/-- Model of Python substring containment `needle in hay`. -/
def containsSeq (needle : Str) : Str → Bool
  | [] => beginsWith needle []
  | c :: cs => beginsWith needle (c :: cs) || containsSeq needle cs

/-- One character of Python `html.escape(s)` (quote=True):
`&`, `<`, `>`, `"` and the apostrophe are replaced by entities. -/
def escapeChar (c : Char) : Str :=
  if c = '&' then ("&amp;".data)
  else if c = '<' then ("&lt;".data)
  else if c = '>' then ("&gt;".data)
  else if c = '"' then ("&quot;".data)
  else if c = '\x27' then ("&#x27;".data)
  else [c]

/-- Model of Python `html.escape` (`quote=True`). -/
def htmlEscape (s : Str) : Str := (s.map escapeChar).flatten

/-- Is every character 7-bit ASCII? -/
def allAscii (s : Str) : Bool := s.all (fun c => c.toNat < 128)

/-! ## Forwarding Context Builder (`lambda.py`, `create_forwarding_context`) -/

/-- `create_forwarding_context` from `lambda.py` lines 70–90: the plain-text
banner splices the three fields verbatim, the HTML banner splices
`html.escape` of each field into the fixed markup. -/
def create_forwarding_context (orig_from orig_to orig_date : Str) : Str × Str :=
  (("---------- Forwarded message ----------\nFrom: ".data)
     ++ orig_from ++ ("\nTo: ".data) ++ orig_to
     ++ ("\nDate: ".data) ++ orig_date ++ ("\n\n".data),
   ("<div style=\"border: 1px solid #ccc; padding: 10px; margin: 10px 0; background-color: #f9f9f9;\">\n<strong>---------- Forwarded message ----------</strong><br>\n<strong>From:</strong> ".data)
     ++ htmlEscape orig_from ++ ("<br>\n<strong>To:</strong> ".data)
     ++ htmlEscape orig_to ++ ("<br>\n<strong>Date:</strong> ".data)
     ++ htmlEscape orig_date ++ ("<br>\n</div>\n".data))

/-- The plain-text banner as a splicing template: its three embedded field
values are exactly the arguments, inserted verbatim. -/
def textBanner (f t d : Str) : Str :=
  ("---------- Forwarded message ----------\nFrom: ".data)
    ++ f ++ ("\nTo: ".data) ++ t ++ ("\nDate: ".data) ++ d ++ ("\n\n".data)

/-- The HTML banner as a splicing template: its three embedded field values
are exactly the arguments. -/
def htmlBanner (f t d : Str) : Str :=
  ("<div style=\"border: 1px solid #ccc; padding: 10px; margin: 10px 0; background-color: #f9f9f9;\">\n<strong>---------- Forwarded message ----------</strong><br>\n<strong>From:</strong> ".data)
    ++ f ++ ("<br>\n<strong>To:</strong> ".data)
    ++ t ++ ("<br>\n<strong>Date:</strong> ".data)
    ++ d ++ ("<br>\n</div>\n".data)

/-! ## Rules validation (`mcp_lambda.py`, `validate_prompt_syntax`) -/

/-- Result of the validate-rules tool: `valid` flag, `errors` list and the
`suggestions` list (the Python dict carries a `suggestions` key exactly when
the list is non-empty). -/
structure SyntaxCheckResult where
  valid : Bool
  errors : List Str
  suggestions : List Str
deriving DecidableEq

/-- Error message for empty rules. -/
def msgEmptyRules : Str := ("Routing rules cannot be empty".data)

/-- Suggestion for rules shorter than 20 characters. -/
def msgTooShort : Str :=
  ("Routing rules seem very short. Consider adding more detailed routing logic.".data)

/-- Suggestion for rules that mention neither routing nor an arrow. -/
def msgNoRoute : Str :=
  ("Routing rules should specify where to route emails (e.g., \x27support@example.com\x27 or \x27sales team\x27).".data)

/-! ## Message Content Extractor (`lambda.py`, `extract_email_content`)

Payload decoding in the source is Python `bytes.decode('utf-8', errors='ignore')`.
The UTF-8 decoder is embedded below: `utf8Units` splits a byte list into
decoded units (`some c` a decoded character, `none` one malformed unit,
following the maximal-subpart convention of Python's strict UTF-8 validation),
and `pyDecode` applies the error handler (`ignore` drops malformed units,
`replace` turns each into U+FFFD). -/

/-- The Unicode replacement character U+FFFD. -/
def repChar : Char := Char.ofNat 0xFFFD

/-- Error handler of `bytes.decode`. -/
inductive DecodeMode where
  | ignoreErrors
  | replaceErrors
deriving DecidableEq

/-- Is `b` a UTF-8 continuation byte? -/
def isCont (b : Nat) : Bool := 0x80 ≤ b && b ≤ 0xBF

/-- Lower bound for the second byte of a multi-byte sequence with lead `b0`
(the restricted ranges exclude overlong forms and surrogates). -/
def cont2Lo (b0 : Nat) : Nat := if b0 = 0xE0 then 0xA0 else if b0 = 0xF0 then 0x90 else 0x80

/-- Upper bound for the second byte of a multi-byte sequence with lead `b0`. -/
def cont2Hi (b0 : Nat) : Nat := if b0 = 0xED then 0x9F else if b0 = 0xF4 then 0x8F else 0xBF

/-- Split a byte list into UTF-8 units: `some c` for a validly encoded scalar
value, `none` for one malformed unit. -/
def utf8Units : List Nat → List (Option Char)
  | [] => []
  | b0 :: rest =>
    if b0 < 0x80 then some (Char.ofNat b0) :: utf8Units rest
    else if 0xC2 ≤ b0 && b0 ≤ 0xDF then
      match rest with
      | b1 :: rest1 =>
        if isCont b1 then
          some (Char.ofNat ((b0 - 0xC0) * 64 + (b1 - 0x80))) :: utf8Units rest1
        else none :: utf8Units (b1 :: rest1)
      | [] => [none]
    else if 0xE0 ≤ b0 && b0 ≤ 0xEF then
      match rest with
      | b1 :: rest1 =>
        if cont2Lo b0 ≤ b1 && b1 ≤ cont2Hi b0 then
          match rest1 with
          | b2 :: rest2 =>
            if isCont b2 then
              some (Char.ofNat ((b0 - 0xE0) * 4096 + (b1 - 0x80) * 64 + (b2 - 0x80)))
                :: utf8Units rest2
            else none :: utf8Units (b2 :: rest2)
          | [] => [none]
        else none :: utf8Units (b1 :: rest1)
      | [] => [none]
    else if 0xF0 ≤ b0 && b0 ≤ 0xF4 then
      match rest with
      | b1 :: rest1 =>
        if cont2Lo b0 ≤ b1 && b1 ≤ cont2Hi b0 then
          match rest1 with
          | b2 :: rest2 =>
            if isCont b2 then
              match rest2 with
              | b3 :: rest3 =>
                if isCont b3 then
                  some (Char.ofNat ((b0 - 0xF0) * 262144 + (b1 - 0x80) * 4096
                      + (b2 - 0x80) * 64 + (b3 - 0x80))) :: utf8Units rest3
                else none :: utf8Units (b3 :: rest3)
              | [] => [none]
            else none :: utf8Units (b2 :: rest2)
          | [] => [none]
        else none :: utf8Units (b1 :: rest1)
      | [] => [none]
    else none :: utf8Units rest

/-- Model of `bytes.decode('utf-8', errors=...)`: `ignore` drops malformed
units, `replace` yields U+FFFD for each. -/
def pyDecode (mode : DecodeMode) (bs : List Nat) : Str :=
  match mode with
  | .ignoreErrors => (utf8Units bs).filterMap id
  | .replaceErrors => (utf8Units bs).map (fun u => u.getD repChar)

/-- A leaf body part of a parsed multipart message: content type, the
`Content-Disposition` header value, and the transfer-decoded payload bytes. -/
structure BodyPart where
  content_type : Str
  content_disposition : Str
  payload : List Nat

/-- A parsed email: either a single part or a multipart whose `walk()` yields
the listed leaf parts (container parts have `multipart/*` content types, which
match neither branch of the extractor, so only leaves are modelled). -/
inductive ParsedMessage where
  | single (content_type : Str) (payload : List Nat)
  | multi (parts : List BodyPart)

/-- The multipart walk of `extract_email_content` (`lambda.py` 39–55):
attachment parts are skipped; the last matching part of each kind wins. -/
def extractWalk : List BodyPart → Str → Str → Str × Str
  | [], t, h => (t, h)
  | p :: ps, t, h =>
    if containsSeq ("attachment".data) p.content_disposition then extractWalk ps t h
    else if p.content_type = ("text/plain".data) then
      extractWalk ps (pyDecode .ignoreErrors p.payload) h
    else if p.content_type = ("text/html".data) then
      extractWalk ps t (pyDecode .ignoreErrors p.payload)
    else extractWalk ps t h

/-- `extract_email_content` from `lambda.py` 32–67. -/
def extract_email_content : ParsedMessage → Str × Str
  | .single ct payload =>
    if ct = ("text/plain".data) then (pyDecode .ignoreErrors payload, [])
    else if ct = ("text/html".data) then ([], pyDecode .ignoreErrors payload)
    else ([], [])
  | .multi parts => extractWalk parts [] []

/-! ## HTML alternative synthesis and dispatch loop (`lambda.py`, `handler`) -/

/-- Opening of the monospace block the handler wraps text-derived HTML in. -/
def monoOpen : Str := ("<div style=\"white-space: pre-wrap; font-family: monospace;\">".data)

/-- Closing tag of the monospace block. -/
def monoClose : Str := ("</div>".data)

/-- Python `text_content.replace('\n', '<br>\n')`. -/
def newlineToBr (s : Str) : Str :=
  (s.map (fun c => if c = '\n' then ("<br>\n".data) else [c])).flatten

/-- The HTML alternative part attached by `handler` (`lambda.py` 311–323):
extracted HTML is used when present; otherwise, when text exists, an HTML part
is synthesized from the text by newline-to-`<br>` conversion inside a
monospace block; with neither, no HTML part is attached. -/
def buildHtmlAlternative (context_html text_content html_content : Str) : Option Str :=
  if !html_content.isEmpty then some (context_html ++ html_content)
  else if !text_content.isEmpty then
    some (context_html ++ monoOpen ++ newlineToBr text_content ++ monoClose)
  else none

/-- The dispatch loop of `handler` (`lambda.py` 292–344): recipients are
processed in order; `send` returning `none` models `ses.send_raw_email`
raising, which aborts the loop (the exception propagates to the outer
`except`, is logged and re-raised).  Returns the recipients for which a
dispatch was attempted and whether the loop completed without an exception. -/
def dispatchLoop (send : Str → Option Str) : List Str → List Str × Bool
  | [] => ([], true)
  | r :: rs =>
    match send r with
    | some _ => ((r :: (dispatchLoop send rs).1), (dispatchLoop send rs).2)
    | none => ([r], false)

/-- `validate_prompt_syntax` from `mcp_lambda.py` lines 225–264. -/
def validate_prompt_syntax (prompt : Str) : SyntaxCheckResult :=
  if prompt.isEmpty || (pyStrip prompt).isEmpty then
    { valid := false, errors := [msgEmptyRules], suggestions := [] }
  else
    let s1 := if prompt.length < 20 then [msgTooShort] else []
    let s2 :=
      if !(containsSeq ("route".data) (pyLower prompt))
          && !(containsSeq ("->".data) prompt) then [msgNoRoute] else []
    { valid := true, errors := [], suggestions := s1 ++ s2 }

/-! ## AI Routing Decision Engine (`lambda.py`, `get_ai_routing_decision`) -/

/-- A JSON value as returned by `json.loads`. -/
inductive JVal where
  | str : Str → JVal
  | num : Int → JVal
  | boolean : Bool → JVal
  | null : JVal
  | arr : List JVal → JVal
  | obj : List (Str × JVal) → JVal

/-- Python truthiness of a JSON value. -/
def jTruthy : JVal → Bool
  | .str s => !s.isEmpty
  | .num n => n != 0
  | .boolean b => b
  | .null => false
  | .arr l => !l.isEmpty
  | .obj f => !f.isEmpty

/-- Dictionary lookup on a parsed JSON object. -/
def dictGet : List (Str × JVal) → Str → Option JVal
  | [], _ => none
  | (k, v) :: fs, key => if k = key then some v else dictGet fs key

/-- Python `key in dict`. -/
def hasKey (fields : List (Str × JVal)) (key : Str) : Bool := (dictGet fields key).isSome

/-- Python `s.find(c)` (−1 modelled as `none`), via an index accumulator. -/
def findCharAux (c : Char) : Str → Nat → Option Nat
  | [], _ => none
  | x :: xs, i => if x = c then some i else findCharAux c xs (i + 1)

/-- Python `s.find(c)`. -/
def findChar (c : Char) (s : Str) : Option Nat := findCharAux c s 0

/-- Python `s.rfind(c)`: index of the last occurrence. -/
def rfindChar (c : Char) (s : Str) : Option Nat :=
  match findChar c s.reverse with
  | none => none
  | some k => some (s.length - 1 - k)

/-- Brace-span extraction of `get_ai_routing_decision` (`lambda.py` 179–188):
the slice from the first opening brace to the last closing brace, or `none`
when either brace is absent (`json_start == -1 or json_end == 0`). -/
def jsonSpan (s : Str) : Option Str :=
  match findChar '\x7b' s, rfindChar '\x7d' s with
  | some i, some j => some ((s.drop i).take (j + 1 - i))
  | _, _ => none

/-- `get_ai_routing_decision` from the point the inference response text is in
hand (`lambda.py` 179–205): extract the brace span, parse it, and require the
`route_to` key.  `parse` is the model of `json.loads` on the span (a
brace-bounded span parses, when it parses, as a JSON object, modelled by its
key/value list); `parse _ = none` models `json.JSONDecodeError`, which the
source catches and turns into `None`. -/
def decisionFromResponse (parse : Str → Option (List (Str × JVal))) (resp : Str) :
    Option (List (Str × JVal)) :=
  match jsonSpan resp with
  | none => none
  | some span =>
    match parse span with
    | none => none
    | some fields => if hasKey fields ("route_to".data) then some fields else none

/-- `get_ai_routing_decision` including the rules gate (`lambda.py` 141–146):
a missing or empty (falsy) routing prompt short-circuits to `none` before any
inference call is made. -/
def get_ai_routing_decision (parse : Str → Option (List (Str × JVal)))
    (routingPrompt : Option Str) (resp : Str) : Option (List (Str × JVal)) :=
  match routingPrompt with
  | none => none
  | some rp => if rp.isEmpty then none else decisionFromResponse parse resp

/-! ## Orchestrator routing resolution (`lambda.py`, `handler` 253–280) -/

/-- The string elements of a JSON array (the decision schema's `tags` is a
list of strings; non-string entries are outside the schema and dropped). -/
def tagStrings : JVal → List Str
  | .arr l => l.filterMap (fun v => match v with | .str s => some s | _ => none)
  | _ => []

/-- Python `' '.join(xs)`. -/
def joinSpace : List Str → Str
  | [] => []
  | [s] => s
  | s :: rest :: more => s ++ (" ".data) ++ joinSpace (rest :: more)

/-- `subject_tags = ' '.join(f'[\x7btag\x7d]' for tag in tags)`. -/
def subjectTags (tags : JVal) : Str :=
  joinSpace ((tagStrings tags).map (fun t => ("[".data) ++ t ++ ("]".data)))

/-- Recipient/tag resolution in `handler` (`lambda.py` 253–280) given the
engine's decision: the default is the single configured forwarding address
with no tags; the AI decision replaces them only when the decision dict and
its `route_to` value are both truthy. -/
def resolveRouting (forwardTo : Str) (decision : Option (List (Str × JVal))) : JVal × Str :=
  match decision with
  | none => (.arr [.str forwardTo], [])
  | some fields =>
    if jTruthy (.obj fields) && jTruthy ((dictGet fields ("route_to".data)).getD .null) then
      ((dictGet fields ("route_to".data)).getD .null,
       subjectTags ((dictGet fields ("tags".data)).getD (.arr [])))
    else (.arr [.str forwardTo], [])

/-- `final_subject = f'\x7bsubject_tags\x7d \x7bsubject\x7d' if subject_tags else subject`. -/
def finalSubject (subject_tags subject : Str) : Str :=
  if subject_tags.isEmpty then subject else subject_tags ++ (" ".data) ++ subject

/-! ## DynamoDB store model (`mcp_lambda.py`, `lambda.py`) -/

/-- A DynamoDB attribute value, in the variants the repository uses. -/
inductive Attr where
  | s : String → Attr
  | bool : Bool → Attr
  | ss : List String → Attr
deriving DecidableEq

/-- A DynamoDB item: an attribute map. -/
abbrev Item := List (String × Attr)

/-- Attribute lookup in an item. -/
def itemGet : Item → String → Option Attr
  | [], _ => none
  | (k, v) :: fs, key => if k = key then some v else itemGet fs key

/-- Python `item.get(k, \x7b\x7d).get("S", dflt)`. -/
def attrS (a : Option Attr) (dflt : String) : String :=
  match a with
  | some (.s v) => v
  | _ => dflt

/-- Python `item.get(k, \x7b\x7d).get("BOOL", dflt)`. -/
def attrBool (a : Option Attr) (dflt : Bool) : Bool :=
  match a with
  | some (.bool b) => b
  | _ => dflt

/-- Python `item.get(k, \x7b\x7d).get("SS", dflt)`. -/
def attrSS (a : Option Attr) (dflt : List String) : List String :=
  match a with
  | some (.ss l) => l
  | _ => dflt

/-- The DynamoDB table: items addressed by `(partition key, sort key)`. -/
abbrev Store := List ((String × String) × Item)

/-- `get_item`. -/
def storeGet : Store → String × String → Option Item
  | [], _ => none
  | (k, it) :: rest, key => if k = key then some it else storeGet rest key

/-- `put_item`: replaces the whole item at the key, or inserts it. -/
def storePut (st : Store) (key : String × String) (it : Item) : Store :=
  match st with
  | [] => [(key, it)]
  | (k, old) :: rest => if k = key then (key, it) :: rest else (k, old) :: storePut rest key it

/-! ## Routing Configuration Reader (`lambda.py`, `get_routing_prompt`) -/

/-- Condition `'enabled' in item and item['enabled'].get('BOOL') is False`
from `lambda.py` 115: true only when the attribute exists, is of BOOL type
and is exactly `False`. -/
def enabledIsFalse (item : Item) : Bool :=
  match itemGet item "enabled" with
  | some (.bool b) => !b
  | _ => false

/-- `get_routing_prompt` from `lambda.py` 93–133 (the forwarding pipeline's
reader).  The store read is modelled as succeeding; a `ClientError` there is
caught in the source and also yields `none`. -/
def lambdaGetRoutingPrompt (routingTable : String) (st : Store) : Option String :=
  if routingTable = "" then none
  else
    match storeGet st ("CONFIG", "routing_prompt") with
    | none => none
    | some item =>
      if enabledIsFalse item then none
      else
        match itemGet item "prompt" with
        | none => none
        | some a => some (attrS (some a) "")

/-! ## Configuration writes (`mcp_lambda.py`) -/

/-- The `routing_rules` value that `mcp_lambda.get_routing_prompt`
(`mcp_lambda.py` 90–128) reports: `none` when the CONFIG item is missing (the
source then reports `routing_rules: None`); both `none` and the empty string
make the archive guard of `update_routing_prompt` falsy. -/
def mcpCurrentRules (st : Store) : Option String :=
  match storeGet st ("CONFIG", "routing_prompt") with
  | none => none
  | some item => some (attrS (itemGet item "routing_rules") "")

/-- `update_routing_prompt` from `mcp_lambda.py` 131–184.  `timestamp` is the
ISO timestamp taken at entry; `readFails` models a `ClientError` inside the
`get_routing_prompt` call (the source then sees an error dict without a
`routing_rules` key and skips archiving); `archiveFails` models the archive
`put_item` raising `ClientError` (swallowed by the inner `except`);
`configFails` models the final `put_item` raising (caught by the outer
handler, which returns `success: False`).  Returns the post-call store and
the `success` flag. -/
def update_routing_prompt (st : Store) (prompt : String) (timestamp : String)
    (readFails archiveFails configFails : Bool) : Store × Bool :=
  let cur := if readFails then none else mcpCurrentRules st
  let st1 :=
    match cur with
    | some rules =>
      if rules = "" then st
      else if archiveFails then st
      else
        storePut st ("HISTORY", "routing_prompt#" ++ timestamp)
          [("pk", .s "HISTORY"), ("sk", .s ("routing_prompt#" ++ timestamp)),
           ("routing_rules", .s rules), ("archived_at", .s timestamp)]
    | none => st
  if configFails then (st1, false)
  else
    (storePut st1 ("CONFIG", "routing_prompt")
      [("pk", .s "CONFIG"), ("sk", .s "routing_prompt"),
       ("routing_rules", .s prompt), ("enabled", .bool true),
       ("updated_at", .s timestamp)], true)

/-- Does the string `p` begin the string `s`? -/
def strBeginsWith (p s : String) : Bool := beginsWith p.data s.data

/-- Is `k` a history key: partition key `HISTORY`, sort key beginning
`routing_prompt#` (the key range `get_prompt_history` queries)? -/
def isHistoryKey (k : String × String) : Bool :=
  k.1 == "HISTORY" && strBeginsWith "routing_prompt#" k.2

/-- The history entries of the store: the items `get_prompt_history`
(`mcp_lambda.py` 187–222) queries. -/
def historyEntries (st : Store) : List Item :=
  (st.filter (fun kv => isHistoryKey kv.1)).map (fun kv => kv.2)

/-! ## API-key validation (`mcp_lambda.py`, `validate_api_key`) -/

/-- The `(key_name, permissions)` pair a successful validation returns
(`mcp_lambda.py` 81–84). -/
def keyInfoOf (item : Item) : String × List String :=
  (attrS (itemGet item "key_name") "unknown", attrSS (itemGet item "permissions") [])

/-- `validate_api_key` from `mcp_lambda.py` 27–87, given the item found under
the key's SHA-256 hash (`none`: no such item — the source returns `None`).
Moments are modelled as integers: `now` is `datetime.now(timezone.utc)` and
`parseIso` models `datetime.fromisoformat` on the stored `expires_at` string.
The opportunistic `last_used_at` update has no effect on the result (its
`ClientError` is swallowed) and is not modelled. -/
def validate_api_key (item? : Option Item) (now : Int) (parseIso : String → Int) :
    Option (String × List String) :=
  match item? with
  | none => none
  | some item =>
    if !(attrBool (itemGet item "is_active") false) then none
    else
      match itemGet item "expires_at" with
      | some a => if now > parseIso (attrS (some a) "") then none else some (keyInfoOf item)
      | none => some (keyInfoOf item)

/-! ## Helper lemmas -/

/-- Lookup after writing the same key. -/
theorem storeGet_put_self (st : Store) (key : String × String) (it : Item) :
    storeGet (storePut st key it) key = some it := by
  induction st with
  | nil => simp [storePut, storeGet]
  | cons kv rest ih =>
    obtain ⟨k, old⟩ := kv
    by_cases h : k = key
    · simp [storePut, storeGet, h]
    · simp [storePut, storeGet, h, ih]

/-- Lookup after writing a different key. -/
theorem storeGet_put_other (st : Store) (key key' : String × String) (it : Item)
    (h : key' ≠ key) : storeGet (storePut st key it) key' = storeGet st key' := by
  induction st with
  | nil => simp [storePut, storeGet, Ne.symm h]
  | cons kv rest ih =>
    obtain ⟨k, old⟩ := kv
    by_cases hk : k = key
    · subst hk
      simp [storePut, storeGet, Ne.symm h]
    · by_cases hk' : k = key'
      · simp [storePut, storeGet, hk, hk', h]
      · simp [storePut, storeGet, hk, hk', ih]

/-- Writing a fresh key appends the item. -/
theorem storePut_fresh (st : Store) (key : String × String) (it : Item)
    (h : storeGet st key = none) : storePut st key it = st ++ [(key, it)] := by
  induction st with
  | nil => simp [storePut]
  | cons kv rest ih =>
    obtain ⟨k, old⟩ := kv
    by_cases hk : k = key
    · simp [storeGet, hk] at h
    · simp only [storeGet, if_neg hk] at h
      simp [storePut, hk, ih h]

/-- Writing under a non-HISTORY partition key leaves the history unchanged. -/
theorem historyEntries_put_other (st : Store) (key : String × String) (it : Item)
    (h : key.1 ≠ "HISTORY") :
    historyEntries (storePut st key it) = historyEntries st := by
  have hkey : isHistoryKey key = false := by
    simp [isHistoryKey, h]
  induction st with
  | nil => simp [storePut, historyEntries, hkey]
  | cons kv rest ih =>
    obtain ⟨k, old⟩ := kv
    by_cases hk : k = key
    · subst hk
      simp [storePut, historyEntries, hkey]
    · simp only [storePut, if_neg hk]
      simp only [historyEntries, List.filter_cons] at ih ⊢
      cases isHistoryKey k <;> simp_all

/-- `p` begins `p ++ q`. -/
theorem beginsWith_self_append (p q : Str) : beginsWith p (p ++ q) = true := by
  induction p with
  | nil => rfl
  | cons a as ih => simp [beginsWith, ih]

/-- A character absent from the string is never found. -/
theorem findCharAux_eq_none (c : Char) (s : Str) (h : c ∉ s) :
    ∀ i, findCharAux c s i = none := by
  induction s with
  | nil => intro i; rfl
  | cons a as ih =>
    intro i
    rw [findCharAux, if_neg, ih (fun hc => h (List.mem_cons_of_mem a hc))]
    intro hac
    exact h (by rw [← hac]; exact List.mem_cons_self a as)

/-- No opening brace: no span is extracted. -/
theorem jsonSpan_eq_none_left (s : Str) (h : '\x7b' ∉ s) : jsonSpan s = none := by
  have h1 : findChar '\x7b' s = none := findCharAux_eq_none _ _ h 0
  unfold jsonSpan
  rw [h1]

/-- No closing brace: no span is extracted. -/
theorem jsonSpan_eq_none_right (s : Str) (h : '\x7d' ∉ s) : jsonSpan s = none := by
  have h2 : rfindChar '\x7d' s = none := by
    unfold rfindChar findChar
    rw [findCharAux_eq_none _ _ (fun hm => h (List.mem_reverse.mp hm)) 0]
  unfold jsonSpan
  rw [h2]
  cases findChar '\x7b' s <;> rfl

/-! ## Claim C10 -/

/-- Claim C10: for every ASCII sender, recipient and date triple, the three
field values embedded in the HTML banner produced by the Forwarding Context
Builder are exactly the HTML-escaped forms of the field values embedded in
the plain-text banner, which are inserted verbatim, unescaped. -/
theorem claim_C10 (f t d : Str) (_hf : allAscii f = true) (_ht : allAscii t = true)
    (_hd : allAscii d = true) :
    create_forwarding_context f t d
      = (textBanner f t d, htmlBanner (htmlEscape f) (htmlEscape t) (htmlEscape d)) := rfl

/-- Claim C10 witness: the theorem applied at a concrete ASCII triple that
contains markup characters. -/
theorem claim_C10_witness :
    create_forwarding_context ("a<b@x".data) ("c&d@y".data) ("Mon, 1 Jan".data)
      = (textBanner ("a<b@x".data) ("c&d@y".data) ("Mon, 1 Jan".data),
         htmlBanner (htmlEscape ("a<b@x".data)) (htmlEscape ("c&d@y".data))
           (htmlEscape ("Mon, 1 Jan".data))) :=
  claim_C10 ("a<b@x".data) ("c&d@y".data) ("Mon, 1 Jan".data)
    (by decide) (by decide) (by decide)

/-! ## Claim C9 -/

/-- Claim C9: empty or all-whitespace rules are invalid with an explanatory
error; any other input is valid, and carries advisory suggestions exactly
when it is shorter than 20 characters or contains neither the word `route`
(case-insensitively) nor a `->` token. -/
theorem claim_C9 (prompt : Str) :
    (pyStrip prompt = [] →
      ( validate_prompt_syntax prompt).valid = false
      ∧ ( validate_prompt_syntax prompt).errors ≠ [])
    ∧ (pyStrip prompt ≠ [] →
      ( validate_prompt_syntax prompt).valid = true
      ∧ (( validate_prompt_syntax prompt).suggestions ≠ [] ↔
          (prompt.length < 20
           ∨ (containsSeq ("route".data) (pyLower prompt) = false
              ∧ containsSeq ("->".data) prompt = false)))) := by
  constructor
  · intro h
    have hc : (prompt.isEmpty || (pyStrip prompt).isEmpty) = true := by
      simp [h]
    simp [ validate_prompt_syntax, hc, msgEmptyRules]
  · intro h
    have h1 : (pyStrip prompt).isEmpty = false := by
      cases hh : pyStrip prompt with
      | nil => exact absurd hh h
      | cons a as => rfl
    have h2 : prompt.isEmpty = false := by
      cases prompt with
      | nil => exact absurd rfl h
      | cons a as => rfl
    rw [ validate_prompt_syntax, h1, h2]
    simp only [Bool.or_self, Bool.false_or, if_false]
    constructor
    · rfl
    · cases hc1 : containsSeq ("route".data) (pyLower prompt) <;>
        cases hc2 : containsSeq ("->".data) prompt <;>
        by_cases hl : prompt.length < 20 <;>
        simp [hl, msgTooShort, msgNoRoute]

/-- Claim C9 witness: the theorem applied at the concrete non-blank input
`hi`, which is short and mentions neither routing nor an arrow. -/
theorem claim_C9_witness :
    ( validate_prompt_syntax ("hi".data)).valid = true
    ∧ (( validate_prompt_syntax ("hi".data)).suggestions ≠ [] ↔
        (("hi".data).length < 20
         ∨ (containsSeq ("route".data) (pyLower ("hi".data)) = false
            ∧ containsSeq ("->".data) ("hi".data) = false))) :=
  (claim_C9 ("hi".data)).2 (by decide)

/-! ## Claim C8 -/

/-- Claim C8: an API-key record whose `expires_at` timestamp lies in the past
at validation time is rejected by `validate_api_key` (yielding the 401 path)
even when its `is_active` flag is true. -/
theorem claim_C8 (item : Item) (now : Int) (parseIso : String → Int) (a : Attr)
    (hact : attrBool (itemGet item "is_active") false = true)
    (hexp : itemGet item "expires_at" = some a)
    (hpast : parseIso (attrS (some a) "") < now) :
    validate_api_key (some item) now parseIso = none := by
  simp [validate_api_key, hact, hexp, gt_iff_lt, hpast]

/-- Claim C8 witness: a concrete active record with an expiry instant 0,
validated at the later instant 100, is rejected. -/
theorem claim_C8_witness :
    validate_api_key
      (some [("pk", .s "API_KEY"), ("sk", .s "deadbeef"), ("key_name", .s "test"),
             ("is_active", .bool true), ("expires_at", .s "2020-01-01T00:00:00+00:00")])
      100 (fun _ => 0) = none :=
  claim_C8
    [("pk", .s "API_KEY"), ("sk", .s "deadbeef"), ("key_name", .s "test"),
     ("is_active", .bool true), ("expires_at", .s "2020-01-01T00:00:00+00:00")]
    100 (fun _ => 0) (.s "2020-01-01T00:00:00+00:00")
    (by decide) (by decide) (by decide)

/-! ## Claim C3 -/

/-- Claim C3: a rules string written by the protocol handler's
`update_routing_prompt` (stored under the field name `routing_rules`) is
never seen by the forwarding pipeline's `get_routing_prompt`, which requires
a field named `prompt`: after any successful write, the reader returns
`none`. -/
theorem claim_C3 (routingTable : String) (st : Store) (prompt timestamp : String)
    (readFails archiveFails : Bool) (htab : routingTable ≠ "") :
    lambdaGetRoutingPrompt routingTable
      (update_routing_prompt st prompt timestamp readFails archiveFails false).1 = none := by
  unfold update_routing_prompt
  simp only [if_false, Bool.false_eq_true]
  unfold lambdaGetRoutingPrompt
  rw [if_neg htab, storeGet_put_self]
  simp [enabledIsFalse, itemGet]

/-- Claim C3 witness: writing concrete rules into an empty store via the
protocol handler leaves the forwarding reader returning `none`. -/
theorem claim_C3_witness :
    lambdaGetRoutingPrompt "ai-email-routing"
      (update_routing_prompt [] "Route everything to a@x" "2026-10-12T00:00:00+00:00"
        false false false).1 = none :=
  claim_C3 "ai-email-routing" [] "Route everything to a@x" "2026-10-12T00:00:00+00:00"
    false false (by decide)

/-! ## Claim C6 -/

/-- Claim C6: an inference response with no opening or no closing brace, or
whose brace span parses to an object lacking `route_to`, makes the Decision
Engine return `none`; the Orchestrator then keeps exactly the single
configured forwarding address and the subject gains no tag prefix. -/
theorem claim_C6 (parse : Str → Option (List (Str × JVal))) (resp forwardTo subject : Str)
    (h : '\x7b' ∉ resp ∨ '\x7d' ∉ resp
       ∨ ∃ span fields, jsonSpan resp = some span ∧ parse span = some fields
           ∧ hasKey fields ("route_to".data) = false) :
    decisionFromResponse parse resp = none
    ∧ resolveRouting forwardTo (decisionFromResponse parse resp)
        = (.arr [.str forwardTo], [])
    ∧ finalSubject (resolveRouting forwardTo (decisionFromResponse parse resp)).2 subject
        = subject := by
  have hd : decisionFromResponse parse resp = none := by
    rcases h with h | h | ⟨span, fields, h1, h2, h3⟩
    · unfold decisionFromResponse
      rw [jsonSpan_eq_none_left resp h]
    · unfold decisionFromResponse
      rw [jsonSpan_eq_none_right resp h]
    · simp [decisionFromResponse, h1, h2, h3]
  refine ⟨hd, ?_, ?_⟩
  · rw [hd]
    rfl
  · rw [hd]
    simp [resolveRouting, finalSubject]

/-- The parse oracle for the Claim C6 witness: the witness response contains
no brace, so no span is ever parsed. -/
def c6Parse : Str → Option (List (Str × JVal)) := fun _ => none

/-- Claim C6 witness: a braceless response leaves the default recipient and
an untouched subject. -/
theorem claim_C6_witness :
    decisionFromResponse c6Parse ("no json here".data) = none
    ∧ resolveRouting ("fwd@x.com".data) (decisionFromResponse c6Parse ("no json here".data))
        = (.arr [.str ("fwd@x.com".data)], [])
    ∧ finalSubject
        (resolveRouting ("fwd@x.com".data)
          (decisionFromResponse c6Parse ("no json here".data))).2 ("Hello".data)
        = ("Hello".data) :=
  claim_C6 c6Parse ("no json here".data) ("fwd@x.com".data) ("Hello".data)
    (Or.inl (by decide))

/-! ## Claim C1 -/

/-- A concrete HTML context banner for the Claim C1 statements. -/
def c1CtxHtml : Str :=
  (create_forwarding_context ("alice@example.com".data) ("inbox@fwd.example".data)
    ("Mon, 1 Jan 2024 00:00:00 +0000".data)).2

/-- The HTML part the handler synthesizes for the Claim C1 counterexample
input: text `<b>hi</b>` followed by a newline and `bye`, with no extracted
HTML. -/
def c1Out : Str := (buildHtmlAlternative c1CtxHtml ("<b>hi</b>\nbye".data) []).getD []

set_option maxRecDepth 20000 in
/-- Claim C1 counterexample: for a forwarded message whose extraction
produced no HTML and the non-empty text `<b>hi</b>` + newline + `bye`, the
synthesized HTML part contains the markup `<b>hi</b>` verbatim and does not
contain its HTML-escaped form — markup characters are inserted verbatim, not
escaped as the claim states. -/
theorem claim_C1_counterexample :
    (buildHtmlAlternative c1CtxHtml ("<b>hi</b>\nbye".data) []).isSome = true
    ∧ containsSeq ("<b>hi</b>".data) c1Out = true
    ∧ containsSeq (htmlEscape ("<b>".data)) c1Out = false := by decide

/-- Claim C1 (amended): for every forwarded message where extraction produced
no HTML but produced non-empty text, the synthesized HTML alternative part is
the context banner followed by a monospace block containing the text content
inserted verbatim (unescaped), with each newline converted to `<br>` and a
line break. -/
theorem claim_C1 (context_html text_content : Str) (h : text_content ≠ []) :
    buildHtmlAlternative context_html text_content []
      = some (context_html ++ monoOpen ++ newlineToBr text_content ++ monoClose) := by
  cases text_content with
  | nil => exact absurd rfl h
  | cons a as => simp [buildHtmlAlternative]

/-- Claim C1 witness: the amended theorem applied at the counterexample's
context banner and a concrete two-line text. -/
theorem claim_C1_witness :
    buildHtmlAlternative c1CtxHtml ("x\ny".data) []
      = some (c1CtxHtml ++ monoOpen ++ newlineToBr ("x\ny".data) ++ monoClose) :=
  claim_C1 c1CtxHtml ("x\ny".data) (by decide)

/-! ## Claim C2 -/

/-- A send oracle that always raises, for the Claim C2 counterexample. -/
def failSend : Str → Option Str := fun _ => none

/-- Claim C2 counterexample: with two resolved recipients and a dispatch
failure on the first, the loop aborts — the second recipient is never
attempted, contradicting the claim that a failure for one recipient does not
prevent attempts for the others. -/
theorem claim_C2_counterexample :
    (dispatchLoop failSend [("a@x.com".data), ("b@x.com".data)]).1 = [("a@x.com".data)]
    ∧ ("b@x.com".data) ∉ (dispatchLoop failSend [("a@x.com".data), ("b@x.com".data)]).1 := by
  decide

/-- Claim C2 (amended): the first dispatch failure aborts the invocation —
every recipient before the first failing one is attempted, the failing one is
attempted, and no recipient after it is attempted (the exception propagates
out of the loop and the handler re-raises). -/
theorem claim_C2 (send : Str → Option Str) (pre : List Str) (r : Str) (post : List Str)
    (hpre : ∀ x ∈ pre, (send x).isSome = true) (hr : send r = none) :
    dispatchLoop send (pre ++ r :: post) = (pre ++ [r], false) := by
  induction pre with
  | nil => simp [dispatchLoop, hr]
  | cons a as ih =>
    have ha : (send a).isSome = true := hpre a (List.mem_cons_self a as)
    obtain ⟨v, hv⟩ := Option.isSome_iff_exists.mp ha
    simp [dispatchLoop, hv, ih (fun x hx => hpre x (List.mem_cons_of_mem a hx))]

/-- A send oracle that succeeds only for the first witness recipient. -/
def c2Send : Str → Option Str :=
  fun r => if r = ("a@x.com".data) then some ("id-1".data) else none

/-- Claim C2 witness: with three recipients and a failure on the second, the
first two are attempted and the third is not. -/
theorem claim_C2_witness :
    dispatchLoop c2Send ([("a@x.com".data)] ++ ("b@x.com".data) :: [("c@x.com".data)])
      = ([("a@x.com".data)] ++ [("b@x.com".data)], false) :=
  claim_C2 c2Send [("a@x.com".data)] ("b@x.com".data) [("c@x.com".data)]
    (by decide) (by decide)

/-! ## Claim C4 -/

/-- Claim C4 counterexample: a single-part `text/plain` message whose payload
starts with the malformed byte `0xFF` followed by `hi` decodes to exactly
`hi` — the malformed byte is silently dropped and no replacement character
appears in the output, contradicting the claim that malformed sequences are
replaced. -/
theorem claim_C4_counterexample :
    (extract_email_content (.single ("text/plain".data) [255, 104, 105])).1 = ("hi".data)
    ∧ repChar ∉ (extract_email_content (.single ("text/plain".data) [255, 104, 105])).1 := by
  decide

/-- Units whose decoded characters avoid U+FFFD: dropping the malformed units
coincides with replacing them and then filtering the replacement character
out. -/
theorem filterMap_eq_filter_getD (us : List (Option Char))
    (h : repChar ∉ us.filterMap id) :
    us.filterMap id
      = (us.map (fun u => u.getD repChar)).filter (fun c => !(c == repChar)) := by
  induction us with
  | nil => rfl
  | cons u us ih =>
    cases u with
    | none =>
      have h' : repChar ∉ us.filterMap id := by
        simpa [List.filterMap_cons] using h
      simpa [List.filterMap_cons, List.filter_cons] using ih h'
    | some c =>
      have hc : ¬(c = repChar) := by
        intro e
        exact h (by simp [List.filterMap_cons, e])
      have h' : repChar ∉ us.filterMap id := by
        intro hm
        exact h (by simp [List.filterMap_cons, hm])
      simp [List.filterMap_cons, List.filter_cons, hc, ih h']

/-- Claim C4 (amended): the extractor decodes payload bytes with the
`ignore` error handler — malformed byte sequences are silently dropped, not
replaced and not raised: whenever the original text itself contains no
replacement character, the extracted text equals the replace-mode decode with
all replacement characters removed. -/
theorem claim_C4 (payload : List Nat)
    (h : repChar ∉ pyDecode .ignoreErrors payload) :
    (extract_email_content (.single ("text/plain".data) payload)).1
      = pyDecode .ignoreErrors payload
    ∧ pyDecode .ignoreErrors payload
      = (pyDecode .replaceErrors payload).filter (fun c => !(c == repChar)) := by
  constructor
  · simp [extract_email_content]
  · exact filterMap_eq_filter_getD (utf8Units payload) (by simpa [pyDecode] using h)

/-- Claim C4 witness: the amended theorem applied at the payload `0xFF 0x41`:
ignore-decoding yields `A`, which is the replace-decoding `U+FFFD A` with the
replacement character removed. -/
theorem claim_C4_witness :
    ((extract_email_content (.single ("text/plain".data) [255, 65])).1
        = pyDecode .ignoreErrors [255, 65]
      ∧ pyDecode .ignoreErrors [255, 65]
        = (pyDecode .replaceErrors [255, 65]).filter (fun c => !(c == repChar))) :=
  claim_C4 [255, 65] (by decide)

/-! ## Claim C5 -/

/-- The Claim C5 span text, `\x7b"route_to": []\x7d` (an object whose
`route_to` is the empty list). -/
def c5Span : Str := ("\x7b\"route_to\": []\x7d".data)

/-- Modelled from `json.loads` at the single input `c5Span`: the parsed
object has the key `route_to` with an empty-array value. -/
def c5Parse : Str → Option (List (Str × JVal)) :=
  fun s => if s = c5Span then some [(("route_to".data), .arr [])] else none

/-- Claim C5 counterexample: on a response whose JSON object has `route_to`
present but equal to the empty list, the Decision Engine returns the decision
as valid (`some`), contradicting the claim that a decision with an empty
`route_to` is never returned as valid — the source checks only key presence. -/
theorem claim_C5_counterexample :
    decisionFromResponse c5Parse c5Span = some [(("route_to".data), JVal.arr [])] := by
  rfl

/-- Claim C5 (amended): when a span is extracted and parses, the Decision
Engine validates only the *presence* of the `route_to` key — a decision whose
`route_to` is the empty list is returned as valid; it is the Orchestrator's
separate truthiness test that then falls back to the default recipient. -/
theorem claim_C5 (parse : Str → Option (List (Str × JVal))) (resp span : Str)
    (fields : List (Str × JVal))
    (h1 : jsonSpan resp = some span) (h2 : parse span = some fields) :
    (decisionFromResponse parse resp
        = if hasKey fields ("route_to".data) then some fields else none)
    ∧ (∀ forwardTo : Str,
        dictGet fields ("route_to".data) = some (JVal.arr []) →
        resolveRouting forwardTo (some fields) = (.arr [.str forwardTo], [])) := by
  constructor
  · simp [decisionFromResponse, h1, h2]
  · intro fwd hrt
    simp [resolveRouting, hrt, jTruthy]

/-- Claim C5 witness: the amended theorem applied at the counterexample's
parse oracle and span. -/
theorem claim_C5_witness :
    (decisionFromResponse c5Parse c5Span
        = if hasKey [(("route_to".data), JVal.arr [])] ("route_to".data)
          then some [(("route_to".data), JVal.arr [])] else none)
    ∧ (∀ forwardTo : Str,
        dictGet [(("route_to".data), JVal.arr [])] ("route_to".data)
          = some (JVal.arr []) →
        resolveRouting forwardTo (some [(("route_to".data), JVal.arr [])])
          = (.arr [.str forwardTo], [])) :=
  claim_C5 c5Parse c5Span c5Span [(("route_to".data), JVal.arr [])] (by rfl) (by rfl)

/-! ## Claim C7 -/

/-- Claim C7 counterexample: a successful write into an *empty* store (no
previous configuration) succeeds yet adds no history entry — the write does
not always leave exactly one new entry in the history list. -/
theorem claim_C7_counterexample :
    (update_routing_prompt [] "new rules" "t1" false false false).2 = true
    ∧ (historyEntries (update_routing_prompt [] "new rules" "t1" false false false).1).length
        = (historyEntries ([] : Store)).length := by
  decide

/-- Claim C7 (amended): when the configuration write succeeds, a history
entry is added exactly when a previous non-empty rules value was readable and
the archive put succeeded — in that case exactly one new entry holding the
previous rules is added (first half); and a failure of the archive step alone
does not block the write: the call still succeeds, the new rules are stored,
and the history is unchanged (second half). -/
theorem claim_C7 (st : Store) (prompt timestamp rules : String)
    (hcur : mcpCurrentRules st = some rules) (hne : rules ≠ "")
    (hfresh : storeGet st ("HISTORY", "routing_prompt#" ++ timestamp) = none) :
    ((update_routing_prompt st prompt timestamp false false false).2 = true
      ∧ (historyEntries (update_routing_prompt st prompt timestamp false false false).1).length
          = (historyEntries st).length + 1
      ∧ storeGet (update_routing_prompt st prompt timestamp false false false).1
            ("HISTORY", "routing_prompt#" ++ timestamp)
          = some [("pk", .s "HISTORY"), ("sk", .s ("routing_prompt#" ++ timestamp)),
                  ("routing_rules", .s rules), ("archived_at", .s timestamp)])
    ∧ ((update_routing_prompt st prompt timestamp false true false).2 = true
      ∧ mcpCurrentRules (update_routing_prompt st prompt timestamp false true false).1
          = some prompt
      ∧ (historyEntries (update_routing_prompt st prompt timestamp false true false).1).length
          = (historyEntries st).length) := by
  have hck : (("CONFIG", "routing_prompt") : String × String).1 ≠ "HISTORY" := by decide
  have hhk : (("HISTORY", "routing_prompt#" ++ timestamp) : String × String)
      ≠ ("CONFIG", "routing_prompt") := by
    intro hcontra
    have hfst : ("HISTORY" : String) = "CONFIG" := congrArg Prod.fst hcontra
    exact absurd hfst (by decide)
  have harch : update_routing_prompt st prompt timestamp false false false
      = (storePut
          (storePut st ("HISTORY", "routing_prompt#" ++ timestamp)
            [("pk", .s "HISTORY"), ("sk", .s ("routing_prompt#" ++ timestamp)),
             ("routing_rules", .s rules), ("archived_at", .s timestamp)])
          ("CONFIG", "routing_prompt")
          [("pk", .s "CONFIG"), ("sk", .s "routing_prompt"),
           ("routing_rules", .s prompt), ("enabled", .bool true),
           ("updated_at", .s timestamp)], true) := by
    simp [update_routing_prompt, hcur, hne]
  have hnoarch : update_routing_prompt st prompt timestamp false true false
      = (storePut st ("CONFIG", "routing_prompt")
          [("pk", .s "CONFIG"), ("sk", .s "routing_prompt"),
           ("routing_rules", .s prompt), ("enabled", .bool true),
           ("updated_at", .s timestamp)], true) := by
    simp [update_routing_prompt, hcur, hne]
  refine ⟨⟨by rw [harch], ?_, ?_⟩, ⟨by rw [hnoarch], ?_, ?_⟩⟩
  · rw [harch]
    rw [historyEntries_put_other _ _ _ hck]
    rw [storePut_fresh _ _ _ hfresh]
    simp [historyEntries, List.filter_append, List.filter_cons, isHistoryKey,
      strBeginsWith, String.data_append, beginsWith]
  · rw [harch]
    rw [storeGet_put_other _ _ _ _ hhk, storeGet_put_self]
  · rw [hnoarch]
    simp [mcpCurrentRules, storeGet_put_self, itemGet, attrS]
  · rw [hnoarch]
    rw [historyEntries_put_other _ _ _ hck]

/-- A store holding one previous configuration, for the Claim C7 witness. -/
def c7Store : Store :=
  [(("CONFIG", "routing_prompt"),
    [("pk", .s "CONFIG"), ("sk", .s "routing_prompt"),
     ("routing_rules", .s "old rules"), ("enabled", .bool true),
     ("updated_at", .s "t0")])]

/-- Claim C7 witness: the amended theorem applied at a store with one
previous non-empty configuration and a fresh timestamp. -/
theorem claim_C7_witness :
    ((update_routing_prompt c7Store "new rules" "t1" false false false).2 = true
      ∧ (historyEntries (update_routing_prompt c7Store "new rules" "t1" false false false).1).length
          = (historyEntries c7Store).length + 1
      ∧ storeGet (update_routing_prompt c7Store "new rules" "t1" false false false).1
            ("HISTORY", "routing_prompt#" ++ "t1")
          = some [("pk", .s "HISTORY"), ("sk", .s ("routing_prompt#" ++ "t1")),
                  ("routing_rules", .s "old rules"), ("archived_at", .s "t1")])
    ∧ ((update_routing_prompt c7Store "new rules" "t1" false true false).2 = true
      ∧ mcpCurrentRules (update_routing_prompt c7Store "new rules" "t1" false true false).1
          = some "new rules"
      ∧ (historyEntries (update_routing_prompt c7Store "new rules" "t1" false true false).1).length
          = (historyEntries c7Store).length) :=
  claim_C7 c7Store "new rules" "t1" "old rules" (by decide) (by decide) (by decide)
